import Mathlib

/-!
Shallow embedding of the booking-availability and lifecycle rules engine of
`src/app/page.tsx` (a single-page booking widget).

Modelling conventions:
* JavaScript timestamps (`Date.getTime()`, milliseconds since the epoch) are
  modelled as `Int`.
* The JavaScript expression `new Date(dateStr + "T" + time).getTime()` is an
  unspecified pure function of the two strings; it is passed around as an
  abstract parameter `parseDT : String → String → Int`.  All claims only
  compare the parsed value to the current time, so no calendar arithmetic is
  needed.
* JavaScript numeric division in `checkRescheduleValidity` is exact on the
  integer ranges involved, so it is modelled with exact rational division
  (`Rat`).
* React state updates (`setBookings`, `setNotification`, `setView`) become
  explicit return values: each handler returns the new booking list together
  with the notification it raises (and, for reschedule, the view it moves to).
-/

/-- Data model of a booking record (the `Booking` type of the source).
`price` and `amount` are optional in the source (`price?: number`). -/
structure Booking where
  id : String
  date : String
  time : String
  createdAt : String
  status : String
  price : Option Int := none
  amount : Option Int := none
  deriving Repr, DecidableEq

/-- `const OPENING_HOUR = 10`. -/
def OPENING_HOUR : Nat := 10

/-- `const CLOSING_HOUR = 22`. -/
def CLOSING_HOUR : Nat := 22

/-- `const TOTAL_SLOTS_PER_DAY = CLOSING_HOUR - OPENING_HOUR`. -/
def TOTAL_SLOTS_PER_DAY : Nat := CLOSING_HOUR - OPENING_HOUR

/-- `const MAX_CAPACITY_PER_SLOT = 1`. -/
def MAX_CAPACITY_PER_SLOT : Nat := 1

/-- `const TICKET_PRICE = 50000`. -/
def TICKET_PRICE : Int := 50000

/-- `const MAX_SEATS_PER_SESSION = 40`. -/
def MAX_SEATS_PER_SESSION : Nat := 40

/-- `generateTimeSlots()`: the loop `for (i = OPENING_HOUR; i < CLOSING_HOUR; i++)`
pushing the label `i + ":00"`. -/
def generateTimeSlots : List String :=
  (List.range (CLOSING_HOUR - OPENING_HOUR)).map
    (fun k => toString (OPENING_HOUR + k) ++ ":00")

/-- `const TIME_SLOTS = generateTimeSlots()`. -/
def TIME_SLOTS : List String := generateTimeSlots

/-- Notification severity (`type: 'success' | 'error' | 'info'`). -/
inductive NotificationType where
  | success
  | error
  | info
  deriving Repr, DecidableEq

/-- A toast notification (`type Notification`). -/
structure Notification where
  type : NotificationType
  message : String
  deriving Repr, DecidableEq

/-- The view the single-page app is showing
(`'calendar' | 'slots' | 'payment' | 'dashboard'`). -/
inductive AppView where
  | calendar
  | slots
  | payment
  | dashboard
  deriving Repr, DecidableEq

/-- `getSessionBookings(dateStr, time)`:
`bookings.filter(b => b.date === dateStr && b.time === time)`. -/
def getSessionBookings (bookings : List Booking) (dateStr time : String) :
    List Booking :=
  bookings.filter (fun b => b.date == dateStr && b.time == time)

/-- `isSlotFull(dateStr, time)`:
`getSessionBookings(dateStr, time).length >= MAX_SEATS_PER_SESSION`. -/
def isSlotFull (bookings : List Booking) (dateStr time : String) : Bool :=
  decide ((getSessionBookings bookings dateStr time).length ≥ MAX_SEATS_PER_SESSION)

/-- `hasUserBookedSession(dateStr, time)`:
`getSessionBookings(dateStr, time).length > 0` (demo simplification: any
booking in the session counts, since there is no user identity). -/
def hasUserBookedSession (bookings : List Booking) (dateStr time : String) : Bool :=
  decide ((getSessionBookings bookings dateStr time).length > 0)

/-- `isSlotTaken(dateStr, time)`: the three sequential checks of the source —
slot full, slot start time strictly before now, session already booked.
`parseDT dateStr time` stands for `new Date(dateStr + "T" + time).getTime()`
and `now` for `new Date().getTime()`. -/
def isSlotTaken (parseDT : String → String → Int) (now : Int)
    (bookings : List Booking) (dateStr time : String) : Bool :=
  if isSlotFull bookings dateStr time then true
  else if parseDT dateStr time < now then true
  else if hasUserBookedSession bookings dateStr time then true
  else false

/-- `isDateFull(dateStr)`: the bookings on that date counted against
`TIME_SLOTS.length * MAX_CAPACITY_PER_SLOT`. -/
def isDateFull (bookings : List Booking) (dateStr : String) : Bool :=
  decide ((bookings.filter (fun b => b.date == dateStr)).length ≥
    TIME_SLOTS.length * MAX_CAPACITY_PER_SLOT)

/-- `checkRescheduleValidity(booking)`: returns false when the booking's
date+time is before now, otherwise compares
`(bookingDateTime - now) / (1000*60*60)` (exact division, see header) with 12
using strict greater-than. -/
def checkRescheduleValidity (parseDT : String → String → Int) (now : Int)
    (booking : Booking) : Bool :=
  let bookingDateTime := parseDT booking.date booking.time
  if bookingDateTime < now then false
  else
    let diffInHours : Rat := ((bookingDateTime - now : Int) : Rat) / (1000 * 60 * 60)
    decide (diffInHours > 12)

/-- `finalizeBooking()`: builds `{...pendingBooking, status: 'PAID',
amount: pendingBooking.price}` and appends it via
`setBookings([...bookings, newBooking])`. -/
def finalizeBooking (bookings : List Booking) (pendingBooking : Booking) :
    List Booking :=
  bookings ++ [{ pendingBooking with status := "PAID", amount := pendingBooking.price }]

/-- `handleCancelBooking(id)`: looks the booking up with `find`; when absent or
ineligible raises the error toast and leaves the list alone, otherwise filters
the id out and raises the success toast. -/
def handleCancelBooking (parseDT : String → String → Int) (now : Int)
    (bookings : List Booking) (id : String) : List Booking × Notification :=
  match bookings.find? (fun b => b.id == id) with
  | none => (bookings, ⟨.error, "Cannot cancel less than 12 hours before."⟩)
  | some booking =>
    if checkRescheduleValidity parseDT now booking then
      (bookings.filter (fun b => !(b.id == id)),
        ⟨.success, "Booking cancelled & refunded."⟩)
    else
      (bookings, ⟨.error, "Cannot cancel less than 12 hours before."⟩)

/-- `handleRescheduleClick(id)`: same lookup and eligibility gate as cancel;
on success removes the booking, raises the info toast and moves the view back
to the calendar (`setView('calendar')`); on failure raises the error toast and
leaves list and view alone. -/
def handleRescheduleClick (parseDT : String → String → Int) (now : Int)
    (bookings : List Booking) (id : String) (view : AppView) :
    List Booking × Notification × AppView :=
  match bookings.find? (fun b => b.id == id) with
  | none => (bookings, ⟨.error, "Cannot reschedule less than 12 hours before."⟩, view)
  | some booking =>
    if checkRescheduleValidity parseDT now booking then
      (bookings.filter (fun b => !(b.id == id)),
        ⟨.info, "Credit retained. Select a new date."⟩, AppView.calendar)
    else
      (bookings, ⟨.error, "Cannot reschedule less than 12 hours before."⟩, view)

/-- `handleSlotSelection(time)`: the pending booking it creates (the random id
and the `createdAt` timestamp are abstract). -/
def makePendingBooking (nid dateStr time createdAt : String) : Booking :=
  { id := nid, date := dateStr, time := time, createdAt := createdAt,
    status := "PENDING", price := some TICKET_PRICE, amount := none }

/-- The booking list the app starts from (`useState<Booking[]>([...])`):
`demo-1` at 10:00 tomorrow and `demo-2` at 12:00 today, both PAID.  The two
date strings and `createdAt` stamps are computed from the wall clock, so they
are parameters here. -/
def initialBookings (d1 d2 c1 c2 : String) : List Booking :=
  [ { id := "demo-1", date := d1, time := "10:00", createdAt := c1,
      status := "PAID", price := some 50000, amount := some 50000 },
    { id := "demo-2", date := d2, time := "12:00", createdAt := c2,
      status := "PAID", price := some 50000, amount := some 50000 } ]

/-- Number of bookings of the list belonging to the (date, time) session. -/
def sessionCount (bookings : List Booking) (dateStr time : String) : Nat :=
  (getSessionBookings bookings dateStr time).length

/-- Number of PAID bookings of the list belonging to the (date, time) session. -/
def paidSessionCount (bookings : List Booking) (dateStr time : String) : Nat :=
  (bookings.filter
    (fun b => b.date == dateStr && b.time == time && b.status == "PAID")).length

/-- The booking-related part of the component state: the booking list plus the
pending (selected but not yet paid) booking, `null` when none. -/
structure BookingState where
  bookings : List Booking
  pending : Option Booking

/-- One user-triggered transition of the engine.  Slot selection is gated by
`isSlotTaken` (the slot button is rendered `disabled={taken}`); finalization
consumes the pending booking (`setPendingBooking(null)`); cancel and
reschedule replace the list by whatever the handler returns and leave the
pending booking alone (the handlers never touch it).  Each step reads the
wall clock (`now`) afresh. -/
inductive Step (parseDT : String → String → Int) : BookingState → BookingState → Prop where
  | select (s : BookingState) (now : Int) (nid dateStr time createdAt : String) :
      isSlotTaken parseDT now s.bookings dateStr time = false →
      Step parseDT s ⟨s.bookings, some (makePendingBooking nid dateStr time createdAt)⟩
  | finalize (s : BookingState) (p : Booking) :
      s.pending = some p →
      Step parseDT s ⟨finalizeBooking s.bookings p, none⟩
  | cancel (s : BookingState) (now : Int) (id : String) :
      Step parseDT s ⟨(handleCancelBooking parseDT now s.bookings id).1, s.pending⟩
  | reschedule (s : BookingState) (now : Int) (id : String) (view : AppView) :
      Step parseDT s ⟨(handleRescheduleClick parseDT now s.bookings id view).1, s.pending⟩

/-- States reachable from the initial booking list (no pending booking) by the
engine's operations. -/
inductive Reachable (parseDT : String → String → Int) : BookingState → Prop where
  | init (d1 d2 c1 c2 : String) :
      Reachable parseDT ⟨initialBookings d1 d2 c1 c2, none⟩
  | step {s s' : BookingState} :
      Reachable parseDT s → Step parseDT s s' → Reachable parseDT s'

/-- Inductive invariant: every session holds at most one booking, and the
pending booking's session (if any) is still empty. -/
def SessionInv (s : BookingState) : Prop :=
  (∀ dateStr time, sessionCount s.bookings dateStr time ≤ 1) ∧
  (∀ p, s.pending = some p → sessionCount s.bookings p.date p.time = 0)

/-- A concrete session already holding 40 PAID bookings (the shape of the
`full-1-*` demo data). -/
def fullSessionList : List Booking :=
  List.replicate 40
    { id := "full-1-0", date := "2024-01-01", time := "12:00", createdAt := "t0",
      status := "PAID", price := some 50000, amount := some 50000 }

/-- A concrete pending booking for the same session. -/
def pend0 : Booking := makePendingBooking "p1" "2024-01-01" "12:00" "t0"

/-- A concrete PAID booking used to instantiate the cancel/reschedule theorems. -/
def bw : Booking :=
  { id := "b1", date := "2099-01-01", time := "10:00", createdAt := "t0",
    status := "PAID", price := some 50000, amount := some 50000 }

/-- A concrete date parser placing every slot 100 000 000 ms after the epoch
(more than 12 hours after `now = 0`). -/
def pdtW : String → String → Int := fun _ _ => 100000000

/-! ## Helper lemmas -/

lemma length_filter_mono {α : Type} (l : List α) (p q : α → Bool)
    (h : ∀ a, p a = true → q a = true) :
    (l.filter p).length ≤ (l.filter q).length := by
  induction l with
  | nil => simp
  | cons a l ih =>
    by_cases hp : p a = true
    · have hq := h a hp
      simp [List.filter_cons, hp, hq]
      omega
    · by_cases hq : q a = true <;> simp [List.filter_cons, hp, hq] <;> omega

lemma sessionCount_filter_le (l : List Booking) (q : Booking → Bool)
    (dateStr time : String) :
    sessionCount (l.filter q) dateStr time ≤ sessionCount l dateStr time := by
  unfold sessionCount getSessionBookings
  rw [List.filter_filter]
  apply length_filter_mono
  intro b hb
  simp only [Bool.and_eq_true] at hb ⊢
  exact hb.1

lemma sessionCount_append_single (l : List Booking) (nb : Booking)
    (dateStr time : String) :
    sessionCount (l ++ [nb]) dateStr time =
      sessionCount l dateStr time +
        (if (nb.date == dateStr && nb.time == time) = true then 1 else 0) := by
  unfold sessionCount getSessionBookings
  rw [List.filter_append, List.length_append]
  by_cases h : (nb.date == dateStr && nb.time == time) = true <;>
    simp [List.filter_cons, h]

/-! ## Claim theorems -/

/-- C1: `checkRescheduleValidity(b)` is true if and only if the booking's
date+time is strictly in the future and strictly more than 12 hours
(12 * 1000 * 60 * 60 ms) after `now`.  In particular it is false whenever
`now ≥ b.dateTime`, false at a gap of exactly 12 hours, and true whenever the
gap exceeds 12 hours (the first conjunct then follows from the second). -/
theorem checkRescheduleValidity_iff (parseDT : String → String → Int)
    (now : Int) (b : Booking) :
    checkRescheduleValidity parseDT now b = true ↔
      (now < parseDT b.date b.time ∧
        12 * (1000 * 60 * 60) < parseDT b.date b.time - now) := by
  unfold checkRescheduleValidity
  by_cases h : parseDT b.date b.time < now
  · simp only [h, if_true]
    constructor
    · intro hf; exact absurd hf (by simp)
    · intro hc; omega
  · simp only [h, if_false, decide_eq_true_eq, gt_iff_lt]
    rw [lt_div_iff₀ (by norm_num : (0 : Rat) < 1000 * 60 * 60)]
    constructor
    · intro hlt
      have hx : (12 * (1000 * 60 * 60) : Int) < parseDT b.date b.time - now := by
        exact_mod_cast hlt
      omega
    · intro hc
      have hx : (12 * (1000 * 60 * 60) : Int) < parseDT b.date b.time - now := by
        omega
      exact_mod_cast hx

/-- C3: `isSlotTaken(date, time)` is true exactly when the slot is full, or
its start time is strictly in the past relative to `now`, or some booking for
that exact session already exists; in particular once the start time has
passed (middle disjunct) the slot is taken regardless of free seats. -/
theorem isSlotTaken_iff (parseDT : String → String → Int) (now : Int)
    (bookings : List Booking) (dateStr time : String) :
    isSlotTaken parseDT now bookings dateStr time = true ↔
      (isSlotFull bookings dateStr time = true ∨
        parseDT dateStr time < now ∨
        hasUserBookedSession bookings dateStr time = true) := by
  unfold isSlotTaken
  by_cases h1 : isSlotFull bookings dateStr time = true
  · simp [h1]
  · by_cases h2 : parseDT dateStr time < now
    · simp [h1, h2]
    · by_cases h3 : hasUserBookedSession bookings dateStr time = true <;>
        simp [h1, h2, h3]

/-- C4: `isSlotFull(date, time)` is true iff the number of bookings matching
(date, time) is at least the fixed seat cap 40 (`MAX_SEATS_PER_SESSION`);
hence 40 PAID bookings in the session force it true, and a full slot is
`isSlotTaken`, blocking further bookings for that session. -/
theorem isSlotFull_spec (bookings : List Booking) (dateStr time : String) :
    (isSlotFull bookings dateStr time = true ↔
      40 ≤ (getSessionBookings bookings dateStr time).length)
    ∧ (40 ≤ (bookings.filter
        (fun b => b.date == dateStr && b.time == time && b.status == "PAID")).length →
        isSlotFull bookings dateStr time = true)
    ∧ (∀ (parseDT : String → String → Int) (now : Int),
        isSlotFull bookings dateStr time = true →
        isSlotTaken parseDT now bookings dateStr time = true) := by
  refine ⟨by simp [isSlotFull, MAX_SEATS_PER_SESSION], ?_, ?_⟩
  · intro hpaid
    have hle : (bookings.filter
        (fun b => b.date == dateStr && b.time == time && b.status == "PAID")).length ≤
        (getSessionBookings bookings dateStr time).length := by
      unfold getSessionBookings
      apply length_filter_mono
      intro b hb
      simp only [Bool.and_eq_true] at hb ⊢
      exact hb.1
    simp only [isSlotFull, MAX_SEATS_PER_SESSION, decide_eq_true_eq]
    omega
  · intro parseDT now hfull
    simp [isSlotTaken, hfull]

/-- C4 witness: a concrete session of 40 PAID bookings satisfies the PAID
hypothesis and is reported full. -/
theorem isSlotFull_spec_witness :
    40 ≤ (fullSessionList.filter
      (fun b => b.date == "2024-01-01" && b.time == "12:00" && b.status == "PAID")).length
    ∧ isSlotFull fullSessionList "2024-01-01" "12:00" = true :=
  ⟨by decide, (isSlotFull_spec fullSessionList "2024-01-01" "12:00").2.1 (by decide)⟩

/-- C7: `isDateFull(date)` is true iff the number of bookings on that date is
at least `TIME_SLOTS.length * MAX_CAPACITY_PER_SLOT = 12 * 1 = 12`, a coarser
constant than the per-session seat cap of 40. -/
theorem isDateFull_spec (bookings : List Booking) (dateStr : String) :
    (isDateFull bookings dateStr = true ↔
      12 ≤ (bookings.filter (fun b => b.date == dateStr)).length)
    ∧ TIME_SLOTS.length * MAX_CAPACITY_PER_SLOT = 12 := by
  have h12 : TIME_SLOTS.length * MAX_CAPACITY_PER_SLOT = 12 := by decide
  refine ⟨?_, h12⟩
  simp [isDateFull, h12]

/-- C5: finalizing a PENDING pending booking appends exactly one new booking
with status PAID and `amount = price`; the list grows by exactly one and the
original bookings stay in place untouched (the result's prefix of the old
length is the old list). -/
theorem finalizeBooking_spec (bookings : List Booking) (pending : Booking)
    (hstatus : pending.status = "PENDING") :
    ∃ nb, finalizeBooking bookings pending = bookings ++ [nb] ∧
      nb.status = "PAID" ∧ nb.amount = pending.price ∧
      (finalizeBooking bookings pending).length = bookings.length + 1 ∧
      (finalizeBooking bookings pending).take bookings.length = bookings := by
  refine ⟨_, rfl, rfl, rfl, by simp [finalizeBooking], ?_⟩
  simp [finalizeBooking]

/-- C5 witness at a concrete pending booking and the empty list. -/
theorem finalizeBooking_spec_witness :
    pend0.status = "PENDING" ∧
    ∃ nb, finalizeBooking ([] : List Booking) pend0 = [] ++ [nb] ∧
      nb.status = "PAID" ∧ nb.amount = pend0.price ∧
      (finalizeBooking ([] : List Booking) pend0).length =
        List.length ([] : List Booking) + 1 ∧
      (finalizeBooking ([] : List Booking) pend0).take
        (List.length ([] : List Booking)) = [] :=
  ⟨rfl, finalizeBooking_spec [] pend0 rfl⟩

/-- C9: `finalizeBooking` checks no availability: even when the pending
booking's session is already full (`isSlotFull` true), it still appends the
new PAID booking and the list grows by one. -/
theorem finalizeBooking_no_capacity_check (bookings : List Booking)
    (pending : Booking)
    (hfull : isSlotFull bookings pending.date pending.time = true) :
    finalizeBooking bookings pending =
      bookings ++ [{ pending with status := "PAID", amount := pending.price }]
    ∧ (finalizeBooking bookings pending).length = bookings.length + 1 :=
  ⟨rfl, by simp [finalizeBooking]⟩

/-- C9 witness: the 40-booking session is full, yet finalizing a 41st pending
booking for it still grows the list. -/
theorem finalizeBooking_no_capacity_check_witness :
    isSlotFull fullSessionList pend0.date pend0.time = true ∧
    (finalizeBooking fullSessionList pend0).length = fullSessionList.length + 1 :=
  ⟨by decide, (finalizeBooking_no_capacity_check fullSessionList pend0 (by decide)).2⟩

/-- C2: when a booking with the requested id is in the list, cancelling
removes it (the list becomes the id-filtered list) exactly when
`checkRescheduleValidity` holds for it; when it does not hold the list is
returned unchanged together with the 12-hour decline notification. -/
theorem handleCancelBooking_spec (parseDT : String → String → Int) (now : Int)
    (bookings : List Booking) (id : String) (b : Booking)
    (hfind : bookings.find? (fun x => x.id == id) = some b) :
    ((handleCancelBooking parseDT now bookings id).1 =
        bookings.filter (fun x => !(x.id == id)) ↔
      checkRescheduleValidity parseDT now b = true)
    ∧ (checkRescheduleValidity parseDT now b = false →
        handleCancelBooking parseDT now bookings id =
          (bookings, ⟨.error, "Cannot cancel less than 12 hours before."⟩)) := by
  have hmem : b ∈ bookings := List.mem_of_find?_eq_some hfind
  have hid : (b.id == id) = true := by simpa using List.find?_some hfind
  constructor
  · constructor
    · intro hres
      by_contra hval
      rw [Bool.not_eq_true] at hval
      have hsame : (handleCancelBooking parseDT now bookings id).1 = bookings := by
        simp [handleCancelBooking, hfind, hval]
      have hbf : b ∈ bookings.filter (fun x => !(x.id == id)) :=
        (hsame.symm.trans hres) ▸ hmem
      rw [List.mem_filter] at hbf
      simp [hid] at hbf
    · intro hval
      simp [handleCancelBooking, hfind, hval]
  · intro hval
    simp [handleCancelBooking, hfind, hval]

/-- C2 witness: a single far-future booking is found and the equivalence is
instantiated there. -/
theorem handleCancelBooking_spec_witness :
    ([bw].find? (fun x => x.id == "b1") = some bw) ∧
    (((handleCancelBooking pdtW 0 [bw] "b1").1 =
        [bw].filter (fun x => !(x.id == "b1")) ↔
      checkRescheduleValidity pdtW 0 bw = true)
    ∧ (checkRescheduleValidity pdtW 0 bw = false →
        handleCancelBooking pdtW 0 [bw] "b1" =
          ([bw], ⟨.error, "Cannot cancel less than 12 hours before."⟩))) :=
  ⟨rfl, handleCancelBooking_spec pdtW 0 [bw] "b1" bw rfl⟩

/-- C8: when a booking with the requested id is in the list, rescheduling
removes it exactly when `checkRescheduleValidity` holds; on success it raises
the info toast and returns control to slot selection (view `calendar`); on
failure the list and view are unchanged and the 12-hour decline notification
is raised. -/
theorem handleRescheduleClick_spec (parseDT : String → String → Int)
    (now : Int) (bookings : List Booking) (id : String) (view : AppView)
    (b : Booking)
    (hfind : bookings.find? (fun x => x.id == id) = some b) :
    ((handleRescheduleClick parseDT now bookings id view).1 =
        bookings.filter (fun x => !(x.id == id)) ↔
      checkRescheduleValidity parseDT now b = true)
    ∧ (checkRescheduleValidity parseDT now b = true →
        handleRescheduleClick parseDT now bookings id view =
          (bookings.filter (fun x => !(x.id == id)),
            ⟨.info, "Credit retained. Select a new date."⟩, AppView.calendar))
    ∧ (checkRescheduleValidity parseDT now b = false →
        handleRescheduleClick parseDT now bookings id view =
          (bookings, ⟨.error, "Cannot reschedule less than 12 hours before."⟩, view)) := by
  have hmem : b ∈ bookings := List.mem_of_find?_eq_some hfind
  have hid : (b.id == id) = true := by simpa using List.find?_some hfind
  refine ⟨?_, ?_, ?_⟩
  · constructor
    · intro hres
      by_contra hval
      rw [Bool.not_eq_true] at hval
      have hsame : (handleRescheduleClick parseDT now bookings id view).1 = bookings := by
        simp [handleRescheduleClick, hfind, hval]
      have hbf : b ∈ bookings.filter (fun x => !(x.id == id)) :=
        (hsame.symm.trans hres) ▸ hmem
      rw [List.mem_filter] at hbf
      simp [hid] at hbf
    · intro hval
      simp [handleRescheduleClick, hfind, hval]
  · intro hval
    simp [handleRescheduleClick, hfind, hval]
  · intro hval
    simp [handleRescheduleClick, hfind, hval]

/-- C8 witness: the same far-future booking instantiates the reschedule
equivalence, starting from the dashboard view. -/
theorem handleRescheduleClick_spec_witness :
    ([bw].find? (fun x => x.id == "b1") = some bw) ∧
    (((handleRescheduleClick pdtW 0 [bw] "b1" AppView.dashboard).1 =
        [bw].filter (fun x => !(x.id == "b1")) ↔
      checkRescheduleValidity pdtW 0 bw = true)
    ∧ (checkRescheduleValidity pdtW 0 bw = true →
        handleRescheduleClick pdtW 0 [bw] "b1" AppView.dashboard =
          ([bw].filter (fun x => !(x.id == "b1")),
            ⟨.info, "Credit retained. Select a new date."⟩, AppView.calendar))
    ∧ (checkRescheduleValidity pdtW 0 bw = false →
        handleRescheduleClick pdtW 0 [bw] "b1" AppView.dashboard =
          ([bw], ⟨.error, "Cannot reschedule less than 12 hours before."⟩,
            AppView.dashboard))) :=
  ⟨rfl, handleRescheduleClick_spec pdtW 0 [bw] "b1" AppView.dashboard bw rfl⟩

/-- C10: when no booking matches the id, cancel and reschedule both leave the
list untouched and raise exactly the same 12-hour decline notification that
the ineligible-booking branch raises (final conjunct) — there is no distinct
not-found error. -/
theorem notFound_same_decline (parseDT : String → String → Int) (now : Int)
    (bookings : List Booking) (id : String) (view : AppView)
    (hfind : bookings.find? (fun b => b.id == id) = none) :
    handleCancelBooking parseDT now bookings id =
      (bookings, ⟨.error, "Cannot cancel less than 12 hours before."⟩)
    ∧ handleRescheduleClick parseDT now bookings id view =
      (bookings, ⟨.error, "Cannot reschedule less than 12 hours before."⟩, view)
    ∧ (∀ (bs : List Booking) (b : Booking),
        bs.find? (fun x => x.id == id) = some b →
        checkRescheduleValidity parseDT now b = false →
        handleCancelBooking parseDT now bs id =
          (bs, ⟨.error, "Cannot cancel less than 12 hours before."⟩)
        ∧ handleRescheduleClick parseDT now bs id view =
          (bs, ⟨.error, "Cannot reschedule less than 12 hours before."⟩, view)) := by
  refine ⟨by simp [handleCancelBooking, hfind], by simp [handleRescheduleClick, hfind], ?_⟩
  intro bs b hf hv
  exact ⟨by simp [handleCancelBooking, hf, hv], by simp [handleRescheduleClick, hf, hv]⟩

/-- C10 witness: the id "zz" matches nothing in the empty list. -/
theorem notFound_same_decline_witness :
    (List.find? (fun b => b.id == "zz") ([] : List Booking) = none) ∧
    (handleCancelBooking pdtW 0 [] "zz" =
      ([], ⟨.error, "Cannot cancel less than 12 hours before."⟩)
    ∧ handleRescheduleClick pdtW 0 [] "zz" AppView.dashboard =
      ([], ⟨.error, "Cannot reschedule less than 12 hours before."⟩, AppView.dashboard)
    ∧ (∀ (bs : List Booking) (b : Booking),
        bs.find? (fun x => x.id == "zz") = some b →
        checkRescheduleValidity pdtW 0 b = false →
        handleCancelBooking pdtW 0 bs "zz" =
          (bs, ⟨.error, "Cannot cancel less than 12 hours before."⟩)
        ∧ handleRescheduleClick pdtW 0 bs "zz" AppView.dashboard =
          (bs, ⟨.error, "Cannot reschedule less than 12 hours before."⟩,
            AppView.dashboard))) :=
  ⟨rfl, notFound_same_decline pdtW 0 [] "zz" AppView.dashboard rfl⟩

lemma isSlotTaken_false_session_empty (parseDT : String → String → Int)
    (now : Int) (bookings : List Booking) (dateStr time : String)
    (h : isSlotTaken parseDT now bookings dateStr time = false) :
    sessionCount bookings dateStr time = 0 := by
  by_cases h1 : isSlotFull bookings dateStr time = true
  · simp [isSlotTaken, h1] at h
  · by_cases h2 : parseDT dateStr time < now
    · simp [isSlotTaken, h1, h2] at h
    · by_cases h3 : hasUserBookedSession bookings dateStr time = true
      · simp [isSlotTaken, h1, h2, h3] at h
      · simp only [hasUserBookedSession, decide_eq_true_eq, gt_iff_lt, Nat.pos_iff_ne_zero,
          ne_eq, not_not] at h3
        simpa [sessionCount] using h3

lemma handleCancelBooking_fst_cases (parseDT : String → String → Int)
    (now : Int) (bookings : List Booking) (id : String) :
    (handleCancelBooking parseDT now bookings id).1 = bookings ∨
      (handleCancelBooking parseDT now bookings id).1 =
        bookings.filter (fun b => !(b.id == id)) := by
  unfold handleCancelBooking
  cases hf : bookings.find? (fun b => b.id == id) with
  | none => left; rfl
  | some b =>
    by_cases hv : checkRescheduleValidity parseDT now b = true
    · right; simp [hv]
    · left; simp [hv]

lemma handleRescheduleClick_fst_cases (parseDT : String → String → Int)
    (now : Int) (bookings : List Booking) (id : String) (view : AppView) :
    (handleRescheduleClick parseDT now bookings id view).1 = bookings ∨
      (handleRescheduleClick parseDT now bookings id view).1 =
        bookings.filter (fun b => !(b.id == id)) := by
  unfold handleRescheduleClick
  cases hf : bookings.find? (fun b => b.id == id) with
  | none => left; rfl
  | some b =>
    by_cases hv : checkRescheduleValidity parseDT now b = true
    · right; simp [hv]
    · left; simp [hv]

lemma sessionCount_pair_le_one (b1 b2 : Booking) (hne : b1.time ≠ b2.time)
    (dateStr time : String) :
    sessionCount [b1, b2] dateStr time ≤ 1 := by
  unfold sessionCount getSessionBookings
  by_cases p1 : (b1.date == dateStr && b1.time == time) = true <;>
    by_cases p2 : (b2.date == dateStr && b2.time == time) = true
  · exfalso
    simp only [Bool.and_eq_true, beq_iff_eq] at p1 p2
    exact hne (p1.2.trans p2.2.symm)
  · simp [List.filter_cons, p1, p2]
  · simp [List.filter_cons, p1, p2]
  · simp [List.filter_cons, p1, p2]

lemma step_preserves_inv {parseDT : String → String → Int}
    {s s' : BookingState} (hs : Step parseDT s s') (hinv : SessionInv s) :
    SessionInv s' := by
  obtain ⟨h1, h2⟩ := hinv
  cases hs with
  | select now nid dateStr time createdAt hguard =>
    refine ⟨h1, ?_⟩
    intro p hp
    simp only [Option.some.injEq] at hp
    subst hp
    simpa [makePendingBooking] using
      isSlotTaken_false_session_empty parseDT now s.bookings dateStr time hguard
  | finalize p hp =>
    constructor
    · intro dateStr time
      show sessionCount (finalizeBooking s.bookings p) dateStr time ≤ 1
      unfold finalizeBooking
      rw [sessionCount_append_single]
      by_cases hm : (({ p with status := "PAID", amount := p.price } : Booking).date
          == dateStr &&
          ({ p with status := "PAID", amount := p.price } : Booking).time == time) = true
      · rw [if_pos hm]
        have h0 := h2 p hp
        simp only [Bool.and_eq_true, beq_iff_eq] at hm
        have hd : p.date = dateStr := by simpa using hm.1
        have ht : p.time = time := by simpa using hm.2
        rw [hd, ht] at h0
        omega
      · rw [if_neg hm]
        have := h1 dateStr time
        omega
    · intro q hq
      simp at hq
  | cancel now id =>
    rcases handleCancelBooking_fst_cases parseDT now s.bookings id with hc | hc
    · refine ⟨fun dateStr time => ?_, fun p hp => ?_⟩
      · show sessionCount (handleCancelBooking parseDT now s.bookings id).1 dateStr time ≤ 1
        rw [hc]; exact h1 dateStr time
      · show sessionCount (handleCancelBooking parseDT now s.bookings id).1 p.date p.time = 0
        rw [hc]; exact h2 p hp
    · refine ⟨fun dateStr time => ?_, fun p hp => ?_⟩
      · show sessionCount (handleCancelBooking parseDT now s.bookings id).1 dateStr time ≤ 1
        rw [hc]
        exact le_trans (sessionCount_filter_le s.bookings _ dateStr time) (h1 dateStr time)
      · show sessionCount (handleCancelBooking parseDT now s.bookings id).1 p.date p.time = 0
        rw [hc]
        have h0 := h2 p hp
        have hle := sessionCount_filter_le s.bookings
          (fun b => !(b.id == id)) p.date p.time
        omega
  | reschedule now id view =>
    rcases handleRescheduleClick_fst_cases parseDT now s.bookings id view with hc | hc
    · refine ⟨fun dateStr time => ?_, fun p hp => ?_⟩
      · show sessionCount (handleRescheduleClick parseDT now s.bookings id view).1
          dateStr time ≤ 1
        rw [hc]; exact h1 dateStr time
      · show sessionCount (handleRescheduleClick parseDT now s.bookings id view).1
          p.date p.time = 0
        rw [hc]; exact h2 p hp
    · refine ⟨fun dateStr time => ?_, fun p hp => ?_⟩
      · show sessionCount (handleRescheduleClick parseDT now s.bookings id view).1
          dateStr time ≤ 1
        rw [hc]
        exact le_trans (sessionCount_filter_le s.bookings _ dateStr time) (h1 dateStr time)
      · show sessionCount (handleRescheduleClick parseDT now s.bookings id view).1
          p.date p.time = 0
        rw [hc]
        have h0 := h2 p hp
        have hle := sessionCount_filter_le s.bookings
          (fun b => !(b.id == id)) p.date p.time
        omega

lemma reachable_inv {parseDT : String → String → Int} {s : BookingState}
    (h : Reachable parseDT s) : SessionInv s := by
  induction h with
  | init d1 d2 c1 c2 =>
    refine ⟨fun dateStr time => ?_, fun p hp => by simp at hp⟩
    apply sessionCount_pair_le_one
    intro h
    exact absurd (show ("10:00" : String) = "12:00" from h) (by decide)
  | step hr hstep ih => exact step_preserves_inv hstep ih

lemma paidSessionCount_le_sessionCount (bookings : List Booking)
    (dateStr time : String) :
    paidSessionCount bookings dateStr time ≤ sessionCount bookings dateStr time := by
  unfold paidSessionCount sessionCount getSessionBookings
  apply length_filter_mono
  intro b hb
  simp only [Bool.and_eq_true] at hb ⊢
  exact ⟨hb.1.1, hb.1.2⟩

/-- C6: in every state reachable from the program's initial booking list by
slot selection (gated by `isSlotTaken`), finalization, cancellation and
rescheduling, each (date, time) session holds at most one PAID booking. -/
theorem reachable_at_most_one_paid_per_session
    (parseDT : String → String → Int) (s : BookingState)
    (h : Reachable parseDT s) (dateStr time : String) :
    paidSessionCount s.bookings dateStr time ≤ 1 := by
  have hinv := (reachable_inv h).1 dateStr time
  have hle := paidSessionCount_le_sessionCount s.bookings dateStr time
  omega

/-- C6 witness: the invariant instantiated at the initial state itself. -/
theorem reachable_at_most_one_paid_per_session_witness :
    paidSessionCount (initialBookings "2024-01-02" "2024-01-01" "t1" "t2")
      "2024-01-01" "12:00" ≤ 1 :=
  reachable_at_most_one_paid_per_session (fun _ _ => 0)
    ⟨initialBookings "2024-01-02" "2024-01-01" "t1" "t2", none⟩
    (Reachable.init "2024-01-02" "2024-01-01" "t1" "t2") "2024-01-01" "12:00"
